import Mathlib

/-!
Shallow embedding of the visual-navigation core of AutoSkyProject:
`src/core/navigator.py` (class `SkyNavigator`) and `src/main.py`
(`main_loop`, `_initial_calibration`).

Modelling conventions:
* Python floats are modelled as rationals (`ℚ`); the literals `0.6`, `0.2`,
  `0.15`, `80.0`, `60` become `3/5`, `1/5`, `15/100`, `80`, `60`.
* The OpenCV objects (images, keypoint arrays, descriptor arrays) are opaque:
  an `Env` maps an image path to abstract handles, and a `Tick` carries the
  per-frame results of `orb.detectAndCompute` on the screen frame and of
  `matcher.match` (each match's Hamming distance and the x-coordinates of its
  two keypoints, i.e. `target_kp[m.queryIdx].pt[0]` and
  `screen_kp[m.trainIdx].pt[0]`).
* Python's `sorted(matches, key=lambda x: x.distance)` is a stable sort; it is
  modelled by a structurally recursive stable insertion sort on the distance
  key.
* `int(len(matches) * 0.15)` truncates a non-negative float, modelled as
  `len * 15 / 100` with natural-number division.
-/

/-- One record of `waypoints.json` as consumed by `SkyNavigator`
(`wp['img_name']`, `wp['id']`, `wp['action']`, `wp.get('match_threshold', 0.6)`,
`wp.get('description', '')`; `duration` is present in the file format but never
read by the navigator). -/
structure Waypoint where
  id : Int := 0
  img_name : String := ""
  action : String := "walk"
  duration : Option ℚ := none
  match_threshold : Option ℚ := none
  description : Option String := none
deriving DecidableEq, Inhabited

/-- One correspondence returned by `self.matcher.match(target_des, screen_des)`:
its Hamming `distance`, the x-coordinate `src_x` of the matched target keypoint
(`target_kp[m.queryIdx].pt[0]`) and the x-coordinate `dst_x` of the matched
screen keypoint (`screen_kp[m.trainIdx].pt[0]`). -/
structure MatchRec where
  distance : ℚ
  src_x : ℚ
  dst_x : ℚ
deriving DecidableEq, Inhabited

/-- The per-tick data that the OpenCV calls produce for one screen frame:
`screen_des_count = none` models `screen_des is None`, `some n` models a
descriptor array of length `n`; `matches` is the output of
`self.matcher.match(self.target_des, screen_des)` in its original order. -/
structure Tick where
  screen_des_count : Option ℕ
  dmatches : List MatchRec
deriving DecidableEq, Inhabited

/-- The filesystem / OpenCV environment seen by `load_waypoint`:
`imgExists path` models `os.path.exists(img_path)`; the other three fields give
abstract handles for `self._preprocess(cv2.imread(img_path))` and the
keypoint/descriptor pair from `self.orb.detectAndCompute` on it (a descriptor
array can be `None` for a degenerate target image). -/
structure Env where
  imgExists : String → Bool
  targetImgOf : String → ℕ
  targetKpOf : String → ℕ
  targetDesOf : String → Option ℕ

/-- The mutable attributes of a `SkyNavigator` instance. -/
structure NavState where
  dataset_path : String := ""
  waypoints : List Waypoint := []
  current_idx : ℕ := 0
  use_edge_feature : Bool := true
  target_img : Option ℕ := none
  target_kp : Option ℕ := none
  target_des : Option ℕ := none
  consecutive_misses : ℕ := 0
  blind_threshold : ℕ := 10
deriving DecidableEq, Inhabited

/-- `SkyNavigator._load_json`: a missing route file yields the empty list
(the source prints a warning and returns `[]`); otherwise the parsed records. -/
def load_json (file_exists : Bool) (contents : List Waypoint) : List Waypoint :=
  if file_exists then contents else []

/-- `os.path.join(self.dataset_path, wp['img_name'])` for the paths at hand. -/
def img_path_of (s : NavState) (wp : Waypoint) : String :=
  s.dataset_path ++ "/" ++ wp.img_name

/-- `SkyNavigator.load_waypoint(index)`.  Returns the updated state, the Python
return value, and the number of `orb.detectAndCompute` invocations performed on
the target image during the call (descriptor recomputations). -/
def load_waypoint (env : Env) (s : NavState) (index : ℕ) : NavState × Bool × ℕ :=
  if s.waypoints.length ≤ index then (s, false, 0)
  else
    let s1 := { s with current_idx := index }
    let wp := s1.waypoints.getD index default
    let path := img_path_of s1 wp
    if env.imgExists path = false then (s1, false, 0)
    else
      ({ s1 with target_img := some (env.targetImgOf path),
                 target_kp := some (env.targetKpOf path),
                 target_des := env.targetDesOf path }, true, 1)

/-- `SkyNavigator.__init__`: load the route file, start at index 0 with no
cached target, call `load_waypoint(0)`, then set the miss counter to 0 and the
blind threshold to 10. -/
def navigator_init (env : Env) (dataset_path : String) (route_file_exists : Bool)
    (route_contents : List Waypoint) (use_edge_feature : Bool) : NavState :=
  let s0 : NavState :=
    { dataset_path := dataset_path,
      waypoints := load_json route_file_exists route_contents,
      current_idx := 0,
      use_edge_feature := use_edge_feature,
      target_img := none, target_kp := none, target_des := none,
      consecutive_misses := 0, blind_threshold := 10 }
  (load_waypoint env s0 0).1

/-- `SkyNavigator.get_current_action`: the waypoint record at `current_idx`,
or `None` when the index is past the end of the route. -/
def get_current_action (s : NavState) : Option Waypoint :=
  if s.current_idx < s.waypoints.length then s.waypoints.get? s.current_idx
  else none

/-- Stable insertion of a match after every already-placed match of smaller or
equal distance. -/
def insertByDist (m : MatchRec) : List MatchRec → List MatchRec
  | [] => [m]
  | x :: xs => if x.distance ≤ m.distance then x :: insertByDist m xs else m :: x :: xs

/-- `sorted(matches, key=lambda x: x.distance)` (Python's sort is stable; a
left-to-right stable insertion sort produces the same list). -/
def sortByDist (l : List MatchRec) : List MatchRec :=
  l.foldl (fun acc m => insertByDist m acc) []

/-- The retained match set of `calculate_offset`:
`[m for m in matches[:int(len(matches)*0.15)] if m.distance < 60]` applied to
the sorted match list. -/
def good_matches (t : Tick) : List MatchRec :=
  ((sortByDist t.dmatches).take ((sortByDist t.dmatches).length * 15 / 100)).filter
    (fun m => m.distance < 60)

/-- `np.mean` of a list of rationals (only applied to non-empty lists). -/
def npMean (l : List ℚ) : ℚ := l.sum / (l.length : ℚ)

/-- `self.consecutive_misses += 1`. -/
def bump_misses (s : NavState) : NavState :=
  { s with consecutive_misses := s.consecutive_misses + 1 }

/-- `SkyNavigator.calculate_offset(screen_frame)`: returns the updated state
together with `(offset_x, similarity)`.
Branches, in source order: `target_des is None` returns `(0, 0)` untouched;
`screen_des is None or len(screen_des) < 5` counts a miss and returns
`(0, 0.0)`; fewer than 4 good matches counts a miss and returns `(0, 0.0)`;
otherwise the centroid offset and `max(0, 1 - avg_dist / 80.0)` are computed
and the miss counter is bumped (similarity < 0.2) or reset to 0. -/
def calculate_offset (s : NavState) (t : Tick) : NavState × ℚ × ℚ :=
  if s.target_des = none then (s, 0, 0)
  else
    match t.screen_des_count with
    | none => (bump_misses s, 0, 0)
    | some n =>
      if n < 5 then (bump_misses s, 0, 0)
      else
        let good := good_matches t
        if good.length < 4 then (bump_misses s, 0, 0)
        else
          let center_src := npMean (good.map (fun m => m.src_x))
          let center_dst := npMean (good.map (fun m => m.dst_x))
          let offset_x := center_dst - center_src
          let avg_dist := npMean (good.map (fun m => m.distance))
          let similarity := max 0 (1 - avg_dist / 80)
          let s1 := if similarity < 1/5 then bump_misses s
                    else { s with consecutive_misses := 0 }
          (s1, offset_x, similarity)

/-- `SkyNavigator.is_blind`: `self.consecutive_misses > self.blind_threshold`. -/
def is_blind (s : NavState) : Bool :=
  s.blind_threshold < s.consecutive_misses

/-- `SkyNavigator.check_arrival(similarity)`:
`similarity > self.waypoints[self.current_idx].get('match_threshold', 0.6)`.
An out-of-range `current_idx` raises `IndexError` in the source; the model
returns `false` there and every theorem about this function assumes the index
in range. -/
def check_arrival (s : NavState) (similarity : ℚ) : Bool :=
  match s.waypoints.get? s.current_idx with
  | some wp => (wp.match_threshold.getD (3/5)) < similarity
  | none => false

/-- `SkyNavigator.next_waypoint`: `self.load_waypoint(self.current_idx + 1)`. -/
def next_waypoint (env : Env) (s : NavState) : NavState × Bool × ℕ :=
  load_waypoint env s (s.current_idx + 1)

/-- An actuator command issued during calibration:
`ctrl.align_camera(delta)`. -/
inductive Cmd where
  | align (delta : ℚ)
deriving DecidableEq

/-- Result of `_initial_calibration` in `src/main.py`: `success` models
`return True`, `failed` models `return False` after the attempt counter
exceeded 12, `stopped` models leaving the `while not stop_event.is_set()` loop
(the supplied tick stream ran out).  Each constructor carries the final
navigator state, the final value of `search_attempts` where meaningful, and
the list of `align_camera` commands issued. -/
inductive CalibResult where
  | success (s : NavState) (cmds : List Cmd)
  | failed (s : NavState) (attempts : ℕ) (cmds : List Cmd)
  | stopped (s : NavState) (attempts : ℕ) (cmds : List Cmd)
deriving DecidableEq

/-- Prepend commands issued before a recursive calibration step to the
commands of its result. -/
def CalibResult.addCmds (cs : List Cmd) : CalibResult → CalibResult
  | .success s c => .success s (cs ++ c)
  | .failed s a c => .failed s a (cs ++ c)
  | .stopped s a c => .stopped s a (cs ++ c)

/-- `_initial_calibration(nav, ctrl, stop_event)` (status callback `None`).
One tick of the stream is consumed per loop iteration; running out of ticks
models the stop event.  Per iteration: compute `(offset, score)`; if
`score > 0.6` either succeed (`|offset| ≤ 10`) or issue `align_camera(offset)`
and re-evaluate without touching `search_attempts`; otherwise issue
`align_camera(30)`, increment `search_attempts`, and fail once it
exceeds 12. -/
def initial_calibration (s : NavState) (attempts : ℕ) : List Tick → CalibResult
  | [] => .stopped s attempts []
  | t :: rest =>
    let r := calculate_offset s t
    if 3/5 < r.2.2 then
      if 10 < |r.2.1| then
        (initial_calibration r.1 attempts rest).addCmds [.align r.2.1]
      else .success r.1 []
    else
      if 12 < attempts + 1 then .failed r.1 (attempts + 1) [.align 30]
      else (initial_calibration r.1 (attempts + 1) rest).addCmds [.align 30]

/-- The possible ways `main_loop` in `src/main.py` can end, following the
spec's `run` contract vocabulary.  The source function itself ends by
returning after a failed calibration, by the stop event, or through its
`except` handler; it has no route-complete exit. -/
inductive Outcome where
  | DONE
  | CALIBRATION_FAILED
  | CANCELLED
  | ERROR
deriving DecidableEq

/-- The navigation `while not stop_event.is_set()` loop of `main_loop`
(status callback `None`), one tick per iteration; running out of ticks models
the stop event (`CANCELLED`).  Each iteration computes offset/similarity, then
reads `nav.waypoints[nav.current_idx]` — which raises `IndexError` (caught by
the outer `except`, hence `ERROR`) when `current_idx` is out of range — then on
arrival dispatches the waypoint action and calls `next_waypoint`. -/
def nav_loop (env : Env) (s : NavState) : List Tick → Outcome
  | [] => .CANCELLED
  | t :: rest =>
    let r := calculate_offset s t
    if r.1.current_idx < r.1.waypoints.length then
      if check_arrival r.1 r.2.2 then
        nav_loop env (next_waypoint env r.1).1 rest
      else nav_loop env r.1 rest
    else .ERROR

/-- `main_loop(stop_event)` of `src/main.py` with no status callback:
construct the navigator (edge mode, route file `dataset/isle_dawn/waypoints.json`),
run `_initial_calibration`, and on success enter the navigation loop.  A failed
calibration returns (`CALIBRATION_FAILED`); a stop during calibration is a
cancellation. -/
def main_loop (env : Env) (route_file_exists : Bool) (route_contents : List Waypoint)
    (calibTicks navTicks : List Tick) : Outcome :=
  let nav := navigator_init env "dataset/isle_dawn" route_file_exists route_contents true
  match initial_calibration nav 0 calibTicks with
  | .success s _ => nav_loop env s navTicks
  | .failed _ _ _ => .CALIBRATION_FAILED
  | .stopped _ _ _ => .CANCELLED

/-- The spec's mode-dependent similarity formula from claim C1, written from
the spec's words: `clamp(1 − avgMatchDistance / normalizer, 0, 1)` with
normalizer 100 when the navigator was constructed in RAW_GRAY mode
(`use_edge_feature` false) and 80 in EDGE mode (`use_edge_feature` true). -/
def claimSimilarityC1 (use_edge_feature : Bool) (avgMatchDistance : ℚ) : ℚ :=
  min 1 (max 0 (1 - avgMatchDistance / (if use_edge_feature then 80 else 100)))

-- Concrete sample inputs used by witnesses and counterexamples.

/-- An environment in which no image file exists. -/
def envNone : Env :=
  { imgExists := fun _ => false, targetImgOf := fun _ => 0,
    targetKpOf := fun _ => 0, targetDesOf := fun _ => none }

/-- A tick with no usable screen descriptors and no matches. -/
def blankTick : Tick := ⟨none, []⟩

/-- A tick with 10 screen descriptors whose sorted match list retains four
good matches of distance 40 (the remaining 23 matches are rejected by the
distance-60 ceiling). -/
def tickD40 : Tick :=
  ⟨some 10, List.replicate 4 ⟨40, 0, 0⟩ ++ List.replicate 23 ⟨70, 0, 0⟩⟩

/-- A tick whose four retained matches all have distance 0 and a centroid
shifted 20 to the right; its similarity is 1 and its offset is 20. -/
def tickFar : Tick :=
  ⟨some 10, List.replicate 4 ⟨0, 0, 20⟩ ++ List.replicate 23 ⟨70, 0, 0⟩⟩

/-- A navigator state in RAW_GRAY mode with a loaded target. -/
def sRaw : NavState :=
  { use_edge_feature := false, target_des := some 0,
    target_img := some 0, target_kp := some 0 }

/-- A navigator state with a loaded target and one route record. -/
def sOne : NavState :=
  { waypoints := [{ id := 0, img_name := "frame_0000.jpg" }],
    target_des := some 0, target_img := some 0, target_kp := some 0 }

/-- A navigator state with no loaded target and five accumulated misses. -/
def sNoTarget : NavState :=
  { target_des := none, consecutive_misses := 5 }

/-- A route record with no `match_threshold` key. -/
def wpA : Waypoint := { id := 0, img_name := "frame_0000.jpg" }

/-- A route record with an explicit `match_threshold` of 0.7. -/
def wpT : Waypoint :=
  { id := 1, img_name := "frame_0001.jpg", match_threshold := some (7/10) }

/-- A navigator state on a two-record route, currently at waypoint 0 with
waypoint 0's snapshot (handle 3) cached. -/
def sTwo : NavState :=
  { dataset_path := "dataset/isle_dawn", waypoints := [wpA, wpT], current_idx := 0,
    target_img := some 3, target_kp := some 3, target_des := some 3 }

-- Helper lemmas about the embedding.

lemma calculate_offset_no_target (s : NavState) (t : Tick) (h : s.target_des = none) :
    calculate_offset s t = (s, 0, 0) := by
  unfold calculate_offset
  rw [if_pos h]

lemma calculate_offset_no_des (s : NavState) (t : Tick) (h : ¬ s.target_des = none)
    (h2 : t.screen_des_count = none) :
    calculate_offset s t = (bump_misses s, 0, 0) := by
  unfold calculate_offset
  rw [if_neg h, h2]

lemma calculate_offset_few_des (s : NavState) (t : Tick) (n : ℕ)
    (h : ¬ s.target_des = none) (h2 : t.screen_des_count = some n) (h3 : n < 5) :
    calculate_offset s t = (bump_misses s, 0, 0) := by
  unfold calculate_offset
  rw [if_neg h, h2]
  exact if_pos h3

lemma calculate_offset_few_good (s : NavState) (t : Tick) (n : ℕ)
    (h : ¬ s.target_des = none) (h2 : t.screen_des_count = some n) (h3 : ¬ n < 5)
    (h4 : (good_matches t).length < 4) :
    calculate_offset s t = (bump_misses s, 0, 0) := by
  unfold calculate_offset
  rw [if_neg h, h2]
  dsimp only
  rw [if_neg h3, if_pos h4]

lemma calculate_offset_matched (s : NavState) (t : Tick) (n : ℕ)
    (h : ¬ s.target_des = none) (h2 : t.screen_des_count = some n) (h3 : ¬ n < 5)
    (h4 : ¬ (good_matches t).length < 4) :
    calculate_offset s t =
      ((if max 0 (1 - npMean ((good_matches t).map (fun m => m.distance)) / 80) < 1/5
          then bump_misses s else { s with consecutive_misses := 0 }),
        npMean ((good_matches t).map (fun m => m.dst_x))
          - npMean ((good_matches t).map (fun m => m.src_x)),
        max 0 (1 - npMean ((good_matches t).map (fun m => m.distance)) / 80)) := by
  unfold calculate_offset
  rw [if_neg h, h2]
  dsimp only
  rw [if_neg h3, if_neg h4]

/-- `calculate_offset` only ever leaves the state alone, bumps the miss
counter, or zeroes it. -/
lemma calculate_offset_fst_cases (s : NavState) (t : Tick) :
    (calculate_offset s t).1 = s ∨ (calculate_offset s t).1 = bump_misses s ∨
      (calculate_offset s t).1 = { s with consecutive_misses := 0 } := by
  by_cases h : s.target_des = none
  · rw [calculate_offset_no_target s t h]
    exact Or.inl rfl
  · rcases h2 : t.screen_des_count with _ | n
    · rw [calculate_offset_no_des s t h h2]
      exact Or.inr (Or.inl rfl)
    · by_cases h3 : n < 5
      · rw [calculate_offset_few_des s t n h h2 h3]
        exact Or.inr (Or.inl rfl)
      · by_cases h4 : (good_matches t).length < 4
        · rw [calculate_offset_few_good s t n h h2 h3 h4]
          exact Or.inr (Or.inl rfl)
        · rw [calculate_offset_matched s t n h h2 h3 h4]
          dsimp only
          split
          · exact Or.inr (Or.inl rfl)
          · exact Or.inr (Or.inr rfl)

lemma calculate_offset_target_des (s : NavState) (t : Tick) :
    (calculate_offset s t).1.target_des = s.target_des := by
  rcases calculate_offset_fst_cases s t with h | h | h <;> simp [h, bump_misses]

lemma calculate_offset_waypoints (s : NavState) (t : Tick) :
    (calculate_offset s t).1.waypoints = s.waypoints := by
  rcases calculate_offset_fst_cases s t with h | h | h <;> simp [h, bump_misses]

lemma calculate_offset_current_idx (s : NavState) (t : Tick) :
    (calculate_offset s t).1.current_idx = s.current_idx := by
  rcases calculate_offset_fst_cases s t with h | h | h <;> simp [h, bump_misses]

/-- The offset/similarity pair depends on the state only through whether a
target descriptor set is loaded. -/
lemma calculate_offset_snd_congr (s s' : NavState) (t : Tick)
    (h : (s.target_des = none) ↔ (s'.target_des = none)) :
    (calculate_offset s t).2 = (calculate_offset s' t).2 := by
  by_cases hn : s.target_des = none
  · rw [calculate_offset_no_target s t hn, calculate_offset_no_target s' t (h.mp hn)]
  · have hn' : ¬ s'.target_des = none := fun hh => hn (h.mpr hh)
    rcases h2 : t.screen_des_count with _ | n
    · rw [calculate_offset_no_des s t hn h2, calculate_offset_no_des s' t hn' h2]
    · by_cases h3 : n < 5
      · rw [calculate_offset_few_des s t n hn h2 h3,
          calculate_offset_few_des s' t n hn' h2 h3]
      · by_cases h4 : (good_matches t).length < 4
        · rw [calculate_offset_few_good s t n hn h2 h3 h4,
            calculate_offset_few_good s' t n hn' h2 h3 h4]
        · rw [calculate_offset_matched s t n hn h2 h3 h4,
            calculate_offset_matched s' t n hn' h2 h3 h4]

lemma insertByDist_perm (m : MatchRec) (l : List MatchRec) :
    List.Perm (insertByDist m l) (m :: l) := by
  induction l with
  | nil => exact List.Perm.refl _
  | cons x xs ih =>
    unfold insertByDist
    split
    · exact (ih.cons x).trans (List.Perm.swap m x xs)
    · exact List.Perm.refl _

lemma foldl_insertByDist_perm (l acc : List MatchRec) :
    List.Perm (l.foldl (fun a m => insertByDist m a) acc) (acc ++ l) := by
  induction l generalizing acc with
  | nil => simp
  | cons x xs ih =>
    have h1 : List.Perm (xs.foldl (fun a m => insertByDist m a) (insertByDist x acc))
        (insertByDist x acc ++ xs) := ih (insertByDist x acc)
    have h2 : List.Perm (insertByDist x acc ++ xs) ((x :: acc) ++ xs) :=
      (insertByDist_perm x acc).append_right xs
    have h3 : List.Perm (acc ++ x :: xs) (x :: (acc ++ xs)) := List.perm_middle
    exact ((h1.trans h2).trans (List.Perm.refl _)).trans h3.symm

lemma sortByDist_perm (l : List MatchRec) : List.Perm (sortByDist l) l := by
  simpa using foldl_insertByDist_perm l []

lemma good_matches_mem_dmatches (t : Tick) (m : MatchRec) (hm : m ∈ good_matches t) :
    m ∈ t.dmatches := by
  unfold good_matches at hm
  have h1 := List.mem_of_mem_filter hm
  have h2 := List.take_subset _ _ h1
  exact (sortByDist_perm t.dmatches).mem_iff.mp h2

lemma good_matches_dist_lt (t : Tick) (m : MatchRec) (hm : m ∈ good_matches t) :
    m.distance < 60 := by
  unfold good_matches at hm
  have := List.of_mem_filter hm
  simpa using this

lemma list_sum_lt_of_forall_lt (l : List ℚ) (c : ℚ) (h : ∀ x ∈ l, x < c)
    (hne : l ≠ []) : l.sum < c * l.length := by
  induction l with
  | nil => exact absurd rfl hne
  | cons x xs ih =>
    rcases xs with _ | ⟨y, ys⟩
    · simpa using h x (by simp)
    · have hx : x < c := h x (by simp)
      have hxs : (y :: ys).sum < c * (y :: ys).length := by
        refine ih ?_ (by simp)
        intro z hz
        exact h z (List.mem_cons_of_mem x hz)
      have : (x :: y :: ys).sum = x + (y :: ys).sum := by simp
      rw [this]
      have hlen : ((x :: y :: ys).length : ℚ) = 1 + (y :: ys).length := by
        simp [List.length_cons]
        ring
      rw [hlen, mul_add, mul_one]
      exact add_lt_add hx hxs

lemma npMean_lt_of_forall_lt (l : List ℚ) (c : ℚ) (h : ∀ x ∈ l, x < c)
    (hne : l ≠ []) : npMean l < c := by
  unfold npMean
  have hlen : 0 < (l.length : ℚ) := by
    have : 0 < l.length := List.length_pos.mpr hne
    exact_mod_cast this
  rw [div_lt_iff₀ hlen]
  calc l.sum < c * l.length := list_sum_lt_of_forall_lt l c h hne
    _ = c * l.length := rfl

lemma npMean_nonneg (l : List ℚ) (h : ∀ x ∈ l, 0 ≤ x) : 0 ≤ npMean l := by
  unfold npMean
  exact div_nonneg (List.sum_nonneg h) (by positivity)

lemma addCmds_failed (cs : List Cmd) (s : NavState) (a : ℕ) (c : List Cmd) :
    (CalibResult.failed s a c).addCmds cs = CalibResult.failed s a (cs ++ c) := rfl

lemma addCmds_stopped (cs : List Cmd) (s : NavState) (a : ℕ) (c : List Cmd) :
    (CalibResult.stopped s a c).addCmds cs = CalibResult.stopped s a (cs ++ c) := rfl

lemma initial_calibration_cons (s : NavState) (a : ℕ) (t : Tick) (rest : List Tick) :
    initial_calibration s a (t :: rest) =
      (if 3/5 < (calculate_offset s t).2.2 then
        if 10 < |(calculate_offset s t).2.1| then
          (initial_calibration (calculate_offset s t).1 a rest).addCmds
            [.align (calculate_offset s t).2.1]
        else .success (calculate_offset s t).1 []
      else
        if 12 < a + 1 then .failed (calculate_offset s t).1 (a + 1) [.align 30]
        else (initial_calibration (calculate_offset s t).1 (a + 1) rest).addCmds
          [.align 30]) := rfl

/-- A calibration run on a tick stream on which every similarity stays at or
below 0.6 fails with the attempt counter at exactly 13 once at least
`13 - attempts` ticks are available, and is still searching (stopped only by
the stop event) before that. -/
lemma calib_all_fail (ticks : List Tick) :
    ∀ (s : NavState) (a : ℕ),
      (∀ t ∈ ticks, (calculate_offset s t).2.2 ≤ 3/5) → a ≤ 12 →
      (13 ≤ a + ticks.length →
        ∃ s' c, initial_calibration s a ticks = .failed s' 13 c) ∧
      (a + ticks.length ≤ 12 →
        ∃ s' c, initial_calibration s a ticks = .stopped s' (a + ticks.length) c) := by
  induction ticks with
  | nil =>
    intro s a _ ha
    constructor
    · intro h13
      exact absurd h13 (by simpa using by omega)
    · intro _
      exact ⟨s, [], by simp [initial_calibration]⟩
  | cons t rest ih =>
    intro s a hfail ha
    have hsim : (calculate_offset s t).2.2 ≤ 3/5 := hfail t (by simp)
    have hnot : ¬ 3/5 < (calculate_offset s t).2.2 := not_lt.mpr hsim
    have hrest : ∀ t' ∈ rest, (calculate_offset (calculate_offset s t).1 t').2.2 ≤ 3/5 := by
      intro t' ht'
      have hcong := calculate_offset_snd_congr (calculate_offset s t).1 s t'
        (by rw [calculate_offset_target_des])
      rw [hcong]
      exact hfail t' (List.mem_cons_of_mem t ht')
    rw [initial_calibration_cons, if_neg hnot]
    by_cases h12 : 12 < a + 1
    · have ha12 : a = 12 := by omega
      rw [if_pos h12]
      constructor
      · intro _
        exact ⟨(calculate_offset s t).1, [.align 30], by rw [ha12]⟩
      · intro hle
        exfalso
        simp [List.length_cons] at hle
        omega
    · rw [if_neg h12]
      obtain ⟨ihf, ihs⟩ := ih (calculate_offset s t).1 (a + 1) hrest (by omega)
      constructor
      · intro h13
        obtain ⟨s', c, hic⟩ := ihf (by simp [List.length_cons] at h13; omega)
        exact ⟨s', [.align 30] ++ c, by rw [hic]; rfl⟩
      · intro hle
        obtain ⟨s', c, hic⟩ := ihs (by simp [List.length_cons] at hle; omega)
        refine ⟨s', [.align 30] ++ c, ?_⟩
        rw [hic, addCmds_stopped]
        simp [List.length_cons]
        omega

/-- Constructing the navigator with an absent route file yields the empty
route and leaves no target loaded (`load_waypoint(0)` immediately returns
`False` on the empty list). -/
lemma navigator_init_no_route (env : Env) (dp : String) (contents : List Waypoint)
    (b : Bool) :
    navigator_init env dp false contents b =
      { dataset_path := dp, waypoints := [], current_idx := 0, use_edge_feature := b,
        target_img := none, target_kp := none, target_des := none,
        consecutive_misses := 0, blind_threshold := 10 } := rfl

/-- With an absent route file, `main_loop` never matches anything (similarity
is identically 0 with no target), so calibration exhausts its 13 attempts and
the run ends as `CALIBRATION_FAILED`. -/
lemma main_loop_no_route_failed (env : Env) (contents : List Waypoint)
    (calibTicks navTicks : List Tick) (h : 13 ≤ calibTicks.length) :
    main_loop env false contents calibTicks navTicks = .CALIBRATION_FAILED := by
  unfold main_loop
  rw [navigator_init_no_route]
  have hfail : ∀ t ∈ calibTicks,
      (calculate_offset
        { dataset_path := "dataset/isle_dawn", waypoints := [], current_idx := 0,
          use_edge_feature := true, target_img := none, target_kp := none,
          target_des := none, consecutive_misses := 0, blind_threshold := 10 } t).2.2
        ≤ 3/5 := by
    intro t _
    rw [calculate_offset_no_target _ t rfl]
    norm_num
  obtain ⟨s', c, hic⟩ :=
    (calib_all_fail calibTicks _ 0 hfail (by omega)).1 (by omega)
  simp only [hic]

-- Sanity examples (concrete evaluation of the embedding).

example : load_json false [{ id := 0 }] = [] := by decide

example :
    (calculate_offset { target_des := none, consecutive_misses := 3 }
      ⟨none, []⟩) = ({ target_des := none, consecutive_misses := 3 }, 0, 0) := by
  decide

example :
    (calculate_offset { target_des := some 0, consecutive_misses := 3 }
      ⟨none, []⟩).1.consecutive_misses = 4 := by
  decide

example :
    good_matches ⟨some 10, List.replicate 4 ⟨40, 0, 0⟩ ++ List.replicate 23 ⟨70, 0, 0⟩⟩
      = List.replicate 4 ⟨40, 0, 0⟩ := by
  rfl

example :
    (calculate_offset { target_des := some 0 }
        ⟨some 10, List.replicate 4 ⟨40, 0, 0⟩ ++ List.replicate 23 ⟨70, 0, 0⟩⟩).2.2
      = 1/2 := by
  have hg : good_matches ⟨some 10, List.replicate 4 ⟨40, 0, 0⟩ ++ List.replicate 23 ⟨70, 0, 0⟩⟩
      = List.replicate 4 ⟨40, 0, 0⟩ := rfl
  norm_num [calculate_offset, hg, npMean, List.map_replicate, List.sum_replicate,
    smul_eq_mul, Option.some_ne_none]

-- Claim theorems.

/-- C5: for every similarity value and every in-range current waypoint,
`check_arrival` returns true iff the similarity is strictly greater than the
waypoint's `match_threshold` (defaulting to 0.6 when the key is absent), and
returns false when the similarity equals the threshold exactly. -/
theorem check_arrival_strict (s : NavState) (sim : ℚ) (wp : Waypoint)
    (h : s.waypoints.get? s.current_idx = some wp) :
    (check_arrival s sim = true ↔ wp.match_threshold.getD (3/5) < sim) ∧
    check_arrival s (wp.match_threshold.getD (3/5)) = false := by
  unfold check_arrival
  rw [h]
  constructor
  · exact decide_eq_true_iff
  · simp

/-- C5 witness: on a route whose current waypoint carries no threshold, the
default 0.6 applies, arrival is strict, and similarity 0.6 is not arrival. -/
theorem check_arrival_strict_witness :
    sOne.waypoints.get? sOne.current_idx = some wpA ∧
    ((check_arrival sOne (7/10) = true ↔ wpA.match_threshold.getD (3/5) < 7/10) ∧
      check_arrival sOne (wpA.match_threshold.getD (3/5)) = false) :=
  ⟨rfl, check_arrival_strict sOne (7/10) wpA rfl⟩

/-- C7: `is_blind` is true iff `consecutive_misses` strictly exceeds the
blind threshold 10; at exactly 10 it is false and at 11 it is true. -/
theorem is_blind_strict (s : NavState) (h : s.blind_threshold = 10) :
    (is_blind s = true ↔ 10 < s.consecutive_misses) ∧
    (s.consecutive_misses = 10 → is_blind s = false) ∧
    (s.consecutive_misses = 11 → is_blind s = true) := by
  unfold is_blind
  rw [h]
  refine ⟨by simp, ?_, ?_⟩ <;> intro h2 <;> simp [h2]

/-- C7 witness: at 11 consecutive misses the navigator is blind (and the
boundary facts hold for that state). -/
theorem is_blind_strict_witness :
    ({ consecutive_misses := 11 } : NavState).blind_threshold = 10 ∧
    ((is_blind { consecutive_misses := 11 } = true ↔
        10 < ({ consecutive_misses := 11 } : NavState).consecutive_misses) ∧
      (({ consecutive_misses := 11 } : NavState).consecutive_misses = 10 →
        is_blind { consecutive_misses := 11 } = false) ∧
      (({ consecutive_misses := 11 } : NavState).consecutive_misses = 11 →
        is_blind { consecutive_misses := 11 } = true)) :=
  ⟨rfl, is_blind_strict { consecutive_misses := 11 } rfl⟩

/-- C8: a tick whose screen descriptor count is below 5 (including a `None`
descriptor array) or whose retained good-match set has fewer than 4 matches
makes `calculate_offset` return exactly offset 0 and similarity 0. -/
theorem unmatched_tick_zero (s : NavState) (t : Tick)
    (h : t.screen_des_count.getD 0 < 5 ∨ (good_matches t).length < 4) :
    (calculate_offset s t).2.1 = 0 ∧ (calculate_offset s t).2.2 = 0 := by
  by_cases htd : s.target_des = none
  · rw [calculate_offset_no_target s t htd]
    exact ⟨rfl, rfl⟩
  · rcases h2 : t.screen_des_count with _ | n
    · rw [calculate_offset_no_des s t htd h2]
      exact ⟨rfl, rfl⟩
    · by_cases h3 : n < 5
      · rw [calculate_offset_few_des s t n htd h2 h3]
        exact ⟨rfl, rfl⟩
      · have h4 : (good_matches t).length < 4 := by
          rcases h with h | h
          · rw [h2] at h
            simp at h
            omega
          · exact h
        rw [calculate_offset_few_good s t n htd h2 h3 h4]
        exact ⟨rfl, rfl⟩

/-- C8 witness: a frame with no descriptors at all yields `(0, 0.0)`. -/
theorem unmatched_tick_zero_witness :
    (blankTick.screen_des_count.getD 0 < 5 ∨ (good_matches blankTick).length < 4) ∧
    ((calculate_offset sOne blankTick).2.1 = 0 ∧
      (calculate_offset sOne blankTick).2.2 = 0) :=
  ⟨by decide, unmatched_tick_zero sOne blankTick (by decide)⟩

/-- C9: `load_waypoint` at an out-of-range index returns `False`, performs no
descriptor recomputation, leaves the whole state (including `current_idx` and
the cached target snapshot) unchanged, is idempotent on repetition, and
`next_waypoint` at the last waypoint is exactly this out-of-range call. -/
theorem load_waypoint_route_complete (env : Env) (s : NavState) (i : ℕ)
    (h : s.waypoints.length ≤ i) :
    load_waypoint env s i = (s, false, 0) ∧
    load_waypoint env (load_waypoint env s i).1 i = (s, false, 0) ∧
    (s.waypoints.length ≤ s.current_idx + 1 → next_waypoint env s = (s, false, 0)) := by
  have h1 : load_waypoint env s i = (s, false, 0) := by
    unfold load_waypoint
    rw [if_pos h]
  refine ⟨h1, ?_, ?_⟩
  · rw [h1]
    exact h1
  · intro h2
    unfold next_waypoint load_waypoint
    rw [if_pos h2]

/-- C9 witness: on a one-record route positioned at its only waypoint,
`load_waypoint(1)` (equivalently `next_waypoint`) signals route-complete and
changes nothing. -/
theorem load_waypoint_route_complete_witness :
    sOne.waypoints.length ≤ 1 ∧
    (load_waypoint envNone sOne 1 = (sOne, false, 0) ∧
      load_waypoint envNone (load_waypoint envNone sOne 1).1 1 = (sOne, false, 0) ∧
      (sOne.waypoints.length ≤ sOne.current_idx + 1 →
        next_waypoint envNone sOne = (sOne, false, 0))) :=
  ⟨by decide, load_waypoint_route_complete envNone sOne 1 (by decide)⟩

/-- C3: `load_waypoint` on an in-range index whose image file is missing
returns `False` with no descriptor recomputation, having already set
`current_idx` to the new index while keeping the previous waypoint's cached
snapshot (`target_img`, `target_kp`, `target_des`), so that afterwards
`get_current_action` and `check_arrival` use the new waypoint's record and
threshold while matching still runs against the old target. -/
theorem load_waypoint_missing_image (env : Env) (s : NavState) (i : ℕ) (wp : Waypoint)
    (hwp : s.waypoints.get? i = some wp)
    (hmiss : env.imgExists (s.dataset_path ++ "/" ++ wp.img_name) = false) :
    load_waypoint env s i = ({ s with current_idx := i }, false, 0) ∧
    get_current_action (load_waypoint env s i).1 = some wp ∧
    (∀ sim : ℚ, check_arrival (load_waypoint env s i).1 sim = true ↔
      wp.match_threshold.getD (3/5) < sim) := by
  have hlt : ¬ s.waypoints.length ≤ i := by
    intro hle
    rw [List.get?_eq_none.mpr hle] at hwp
    exact Option.noConfusion hwp
  have hgetD : s.waypoints.getD i default = wp := by
    simp [List.getD_eq_getElem?_getD, ← List.get?_eq_getElem?, hwp]
  have h1 : load_waypoint env s i = ({ s with current_idx := i }, false, 0) := by
    unfold load_waypoint
    rw [if_neg hlt]
    dsimp only
    rw [hgetD]
    unfold img_path_of
    dsimp only
    rw [if_pos hmiss]
  refine ⟨h1, ?_, ?_⟩
  · rw [h1]
    unfold get_current_action
    dsimp only
    rw [if_pos (Nat.lt_of_not_le hlt)]
    exact hwp
  · intro sim
    rw [h1]
    unfold check_arrival
    dsimp only
    rw [hwp]
    exact decide_eq_true_iff

/-- C3 witness: with waypoint 1's image absent, `load_waypoint(1)` fails but
moves `current_idx` to 1 while keeping waypoint 0's snapshot, and arrival now
uses waypoint 1's 0.7 threshold. -/
theorem load_waypoint_missing_image_witness :
    sTwo.waypoints.get? 1 = some wpT ∧
    envNone.imgExists (sTwo.dataset_path ++ "/" ++ wpT.img_name) = false ∧
    (load_waypoint envNone sTwo 1 = ({ sTwo with current_idx := 1 }, false, 0) ∧
      get_current_action (load_waypoint envNone sTwo 1).1 = some wpT ∧
      (∀ sim : ℚ, check_arrival (load_waypoint envNone sTwo 1).1 sim = true ↔
        wpT.match_threshold.getD (3/5) < sim)) :=
  ⟨rfl, rfl, load_waypoint_missing_image envNone sTwo 1 wpT rfl rfl⟩

/-- C10: whenever `calculate_offset` retains at least 4 good matches, every
retained match is strictly below the distance ceiling 60, hence the average
distance is below 60, the similarity `max(0, 1 - avg/80)` is strictly above
0.25, and the tick resets `consecutive_misses` to 0 (so the low-similarity
increment branch is unreachable on a matched tick). -/
theorem matched_tick_resets (s : NavState) (t : Tick) (n : ℕ)
    (htd : ¬ s.target_des = none) (hdes : t.screen_des_count = some n) (hn : ¬ n < 5)
    (hgood : ¬ (good_matches t).length < 4) :
    (∀ m ∈ good_matches t, m.distance < 60) ∧
    npMean ((good_matches t).map (fun m => m.distance)) < 60 ∧
    1/4 < (calculate_offset s t).2.2 ∧
    (calculate_offset s t).1.consecutive_misses = 0 := by
  have hne : good_matches t ≠ [] := by
    intro hnil
    rw [hnil] at hgood
    simp at hgood
  have hmapne : (good_matches t).map (fun m => m.distance) ≠ [] := by
    simpa using hne
  have havg : npMean ((good_matches t).map (fun m => m.distance)) < 60 := by
    refine npMean_lt_of_forall_lt _ _ ?_ hmapne
    intro x hx
    rcases List.mem_map.mp hx with ⟨m, hm, rfl⟩
    exact good_matches_dist_lt t m hm
  have hq : npMean ((good_matches t).map (fun m => m.distance)) / 80 < 3/4 := by
    rw [div_lt_iff₀ (by norm_num : (0:ℚ) < 80)]
    linarith
  have hsim : 1/4 <
      max 0 (1 - npMean ((good_matches t).map (fun m => m.distance)) / 80) := by
    have h14 : (1:ℚ)/4 <
        1 - npMean ((good_matches t).map (fun m => m.distance)) / 80 := by
      linarith
    exact lt_of_lt_of_le h14 (le_max_right _ _)
  rw [calculate_offset_matched s t n htd hdes hn hgood]
  refine ⟨fun m hm => good_matches_dist_lt t m hm, havg, hsim, ?_⟩
  dsimp only
  rw [if_neg (not_lt.mpr (le_of_lt (lt_trans (by norm_num) hsim)))]

/-- C10 witness: the four retained distance-40 matches of a concrete tick give
similarity 1/2 > 0.25 and reset the miss counter. -/
theorem matched_tick_resets_witness :
    (¬ sOne.target_des = none) ∧ tickD40.screen_des_count = some 10 ∧
    (¬ (10:ℕ) < 5) ∧ (¬ (good_matches tickD40).length < 4) ∧
    ((∀ m ∈ good_matches tickD40, m.distance < 60) ∧
      npMean ((good_matches tickD40).map (fun m => m.distance)) < 60 ∧
      1/4 < (calculate_offset sOne tickD40).2.2 ∧
      (calculate_offset sOne tickD40).1.consecutive_misses = 0) :=
  ⟨by decide, rfl, by decide, by decide,
    matched_tick_resets sOne tickD40 10 (by decide) rfl (by decide) (by decide)⟩

/-- C1 (amended): on every matched tick the similarity equals
`clamp(1 - avgMatchDistance / 80, 0, 1)` — the normalizer is the constant 80
(`avg_dist / 80.0` in the source) regardless of the preprocessing mode, and
flipping `use_edge_feature` leaves the similarity unchanged. -/
theorem similarity_normalizer_80 (s : NavState) (t : Tick) (n : ℕ)
    (htd : ¬ s.target_des = none) (hdes : t.screen_des_count = some n) (hn : ¬ n < 5)
    (hgood : ¬ (good_matches t).length < 4)
    (hpos : ∀ m ∈ t.dmatches, 0 ≤ m.distance) :
    (calculate_offset s t).2.2
      = min 1 (max 0 (1 - npMean ((good_matches t).map (fun m => m.distance)) / 80)) ∧
    (calculate_offset { s with use_edge_feature := !s.use_edge_feature } t).2.2
      = (calculate_offset s t).2.2 := by
  have havg : 0 ≤ npMean ((good_matches t).map (fun m => m.distance)) := by
    refine npMean_nonneg _ ?_
    intro x hx
    rcases List.mem_map.mp hx with ⟨m, hm, rfl⟩
    exact hpos m (good_matches_mem_dmatches t m hm)
  constructor
  · rw [calculate_offset_matched s t n htd hdes hn hgood]
    dsimp only
    rw [min_eq_right]
    refine max_le (by norm_num) ?_
    have hdiv : 0 ≤ npMean ((good_matches t).map (fun m => m.distance)) / 80 := by
      positivity
    linarith
  · have hcong := calculate_offset_snd_congr
      { s with use_edge_feature := !s.use_edge_feature } s t Iff.rfl
    rw [hcong]

/-- C1 witness: a concrete RAW_GRAY-mode matched tick with average distance 40
evaluates to similarity `clamp(1 - 40/80, 0, 1) = 1/2`. -/
theorem similarity_normalizer_80_witness :
    (¬ sRaw.target_des = none) ∧ tickD40.screen_des_count = some 10 ∧
    (¬ (10:ℕ) < 5) ∧ (¬ (good_matches tickD40).length < 4) ∧
    (∀ m ∈ tickD40.dmatches, 0 ≤ m.distance) ∧
    ((calculate_offset sRaw tickD40).2.2
        = min 1 (max 0 (1 - npMean ((good_matches tickD40).map (fun m => m.distance)) / 80)) ∧
      (calculate_offset { sRaw with use_edge_feature := !sRaw.use_edge_feature } tickD40).2.2
        = (calculate_offset sRaw tickD40).2.2) :=
  ⟨by decide, rfl, by decide, by decide, by decide,
    similarity_normalizer_80 sRaw tickD40 10 (by decide) rfl (by decide) (by decide)
      (by decide)⟩

/-- C1 counterexample: in RAW_GRAY mode (`use_edge_feature = false`) with a
concrete matched tick of average distance 40, the code returns similarity
`1 - 40/80 = 1/2`, not the claim's `clamp(1 - 40/100, 0, 1) = 3/5`: the
source applies the divisor 80 in both modes, not 100 in raw mode. -/
theorem similarity_normalizer_cex :
    sRaw.use_edge_feature = false ∧
    npMean ((good_matches tickD40).map (fun m => m.distance)) = 40 ∧
    (calculate_offset sRaw tickD40).2.2 = 1/2 ∧
    claimSimilarityC1 sRaw.use_edge_feature
        (npMean ((good_matches tickD40).map (fun m => m.distance))) = 3/5 ∧
    (calculate_offset sRaw tickD40).2.2 ≠
      claimSimilarityC1 sRaw.use_edge_feature
        (npMean ((good_matches tickD40).map (fun m => m.distance))) := by
  have hg : good_matches tickD40 = List.replicate 4 ⟨40, 0, 0⟩ := rfl
  have havg : npMean ((good_matches tickD40).map (fun m => m.distance)) = 40 := by
    rw [hg]
    norm_num [npMean, List.map_replicate, List.sum_replicate, smul_eq_mul]
  have hsim : (calculate_offset sRaw tickD40).2.2 = 1/2 := by
    rw [calculate_offset_matched sRaw tickD40 10 (by decide) rfl (by decide) (by decide)]
    dsimp only
    rw [havg]
    norm_num
  have hclaim : claimSimilarityC1 sRaw.use_edge_feature
      (npMean ((good_matches tickD40).map (fun m => m.distance))) = 3/5 := by
    rw [havg]
    norm_num [claimSimilarityC1, sRaw]
  refine ⟨rfl, havg, hsim, hclaim, ?_⟩
  rw [hsim, hclaim]
  norm_num

/-- C6 (amended): provided a target snapshot is loaded (`target_des` is not
`None`), each `calculate_offset` tick sets `consecutive_misses` to the old
value plus 1 when the returned similarity is below 0.2 and to exactly 0
otherwise; with no loaded target the counter is left unchanged (see the
counterexample). -/
theorem misses_update_needs_target (s : NavState) (t : Tick)
    (htd : ¬ s.target_des = none) :
    (calculate_offset s t).1.consecutive_misses =
      (if (calculate_offset s t).2.2 < 1/5 then s.consecutive_misses + 1 else 0) := by
  rcases h2 : t.screen_des_count with _ | n
  · rw [calculate_offset_no_des s t htd h2]
    norm_num [bump_misses]
  · by_cases h3 : n < 5
    · rw [calculate_offset_few_des s t n htd h2 h3]
      norm_num [bump_misses]
    · by_cases h4 : (good_matches t).length < 4
      · rw [calculate_offset_few_good s t n htd h2 h3 h4]
        norm_num [bump_misses]
      · rw [calculate_offset_matched s t n htd h2 h3 h4]
        dsimp only
        by_cases hc : max 0 (1 - npMean ((good_matches t).map (fun m => m.distance)) / 80)
            < 1/5
        · rw [if_pos hc, if_pos hc]
          rfl
        · rw [if_neg hc, if_neg hc]

/-- C6 witness: with a loaded target, a descriptor-less tick (similarity 0)
increments the counter by exactly 1. -/
theorem misses_update_needs_target_witness :
    (¬ sOne.target_des = none) ∧
    (calculate_offset sOne blankTick).1.consecutive_misses =
      (if (calculate_offset sOne blankTick).2.2 < 1/5 then
        sOne.consecutive_misses + 1 else 0) :=
  ⟨by decide, misses_update_needs_target sOne blankTick (by decide)⟩

/-- C6 counterexample: with `target_des = None` (e.g. before any successful
waypoint load) a tick processed by `calculate_offset` returns similarity 0 —
below the 0.2 floor — yet leaves `consecutive_misses` unchanged at 5 instead
of incrementing it to 6, contradicting the claim's "increments by exactly 1
when the tick's similarity is below the low-confidence floor". -/
theorem misses_no_target_cex :
    (calculate_offset sNoTarget blankTick).2.2 = 0 ∧
    (calculate_offset sNoTarget blankTick).2.2 < 1/5 ∧
    sNoTarget.consecutive_misses = 5 ∧
    (calculate_offset sNoTarget blankTick).1.consecutive_misses = 5 ∧
    (calculate_offset sNoTarget blankTick).1.consecutive_misses ≠
      sNoTarget.consecutive_misses + 1 := by
  have h := calculate_offset_no_target sNoTarget blankTick rfl
  rw [h]
  norm_num [sNoTarget]

/-- C4: starting calibration with attempt counter 0, if the similarity never
exceeds 0.6 the run fails with the attempt counter at exactly 13 (the 13th
consecutive failed rotation attempt) as soon as at least 13 ticks are
available, and never fails after 12 or fewer ticks (the run is still
searching then); a re-check tick with similarity above 0.6 but |offset| above
10 issues exactly one `align_camera(offset)` steering correction and proceeds
without advancing the attempt counter. -/
theorem calibration_attempt_bound (s : NavState) (ticks : List Tick)
    (hfail : ∀ t ∈ ticks, (calculate_offset s t).2.2 ≤ 3/5) :
    (13 ≤ ticks.length →
      ∃ s' c, initial_calibration s 0 ticks = .failed s' 13 c) ∧
    (ticks.length ≤ 12 →
      ∃ s' c, initial_calibration s 0 ticks = .stopped s' ticks.length c) ∧
    (∀ t rest a, 3/5 < (calculate_offset s t).2.2 →
      10 < |(calculate_offset s t).2.1| →
      initial_calibration s a (t :: rest) =
        (initial_calibration (calculate_offset s t).1 a rest).addCmds
          [.align (calculate_offset s t).2.1]) := by
  obtain ⟨h1, h2⟩ := calib_all_fail ticks s 0 hfail (by omega)
  refine ⟨fun h13 => h1 (by omega), fun h12 => ?_, ?_⟩
  · simpa using h2 (by omega)
  · intro t rest a hsim hoff
    rw [initial_calibration_cons, if_pos hsim, if_pos hoff]

/-- C4 witness: with no loaded target every tick scores 0 ≤ 0.6, and a
13-tick stream makes calibration fail at attempt 13. -/
theorem calibration_attempt_bound_witness :
    (∀ t ∈ List.replicate 13 blankTick, (calculate_offset sNoTarget t).2.2 ≤ 3/5) ∧
    ((13 ≤ (List.replicate 13 blankTick).length →
        ∃ s' c, initial_calibration sNoTarget 0 (List.replicate 13 blankTick)
          = .failed s' 13 c) ∧
      ((List.replicate 13 blankTick).length ≤ 12 →
        ∃ s' c, initial_calibration sNoTarget 0 (List.replicate 13 blankTick)
          = .stopped s' (List.replicate 13 blankTick).length c) ∧
      (∀ t rest a, 3/5 < (calculate_offset sNoTarget t).2.2 →
        10 < |(calculate_offset sNoTarget t).2.1| →
        initial_calibration sNoTarget a (t :: rest) =
          (initial_calibration (calculate_offset sNoTarget t).1 a rest).addCmds
            [.align (calculate_offset sNoTarget t).2.1])) := by
  have hfail : ∀ t ∈ List.replicate 13 blankTick,
      (calculate_offset sNoTarget t).2.2 ≤ 3/5 := by
    intro t _
    rw [calculate_offset_no_target sNoTarget t rfl]
    norm_num
  exact ⟨hfail, calibration_attempt_bound sNoTarget (List.replicate 13 blankTick) hfail⟩

/-- C2 (amended): an absent route file is non-fatal and yields an empty route
with no loaded target; but the control loop does not reach DONE — with no
target every tick scores similarity 0, so calibration exhausts its 13
attempts and the run terminates as CALIBRATION_FAILED. -/
theorem empty_route_calibration_failed (env : Env) (contents : List Waypoint)
    (calibTicks navTicks : List Tick) (h : 13 ≤ calibTicks.length) :
    (navigator_init env "dataset/isle_dawn" false contents true).waypoints = [] ∧
    (navigator_init env "dataset/isle_dawn" false contents true).target_des = none ∧
    main_loop env false contents calibTicks navTicks = .CALIBRATION_FAILED ∧
    main_loop env false contents calibTicks navTicks ≠ .DONE := by
  refine ⟨rfl, rfl, main_loop_no_route_failed env contents calibTicks navTicks h, ?_⟩
  rw [main_loop_no_route_failed env contents calibTicks navTicks h]
  decide

/-- C2 witness: concrete absent-route run with 13 stop-free ticks. -/
theorem empty_route_calibration_failed_witness :
    13 ≤ (List.replicate 13 blankTick).length ∧
    ((navigator_init envNone "dataset/isle_dawn" false [] true).waypoints = [] ∧
      (navigator_init envNone "dataset/isle_dawn" false [] true).target_des = none ∧
      main_loop envNone false [] (List.replicate 13 blankTick) []
        = .CALIBRATION_FAILED ∧
      main_loop envNone false [] (List.replicate 13 blankTick) [] ≠ .DONE) :=
  ⟨by decide,
    empty_route_calibration_failed envNone [] (List.replicate 13 blankTick) []
      (by decide)⟩

/-- C2 counterexample: with the route file absent (empty route), a concrete
uncancelled run of the control loop terminates as CALIBRATION_FAILED, not
DONE — and not immediately, but only after the 13 calibration attempts are
spent — contradicting "the control loop immediately reaches the DONE terminal
outcome". -/
theorem empty_route_not_done_cex :
    main_loop envNone false [] (List.replicate 13 blankTick) []
      = .CALIBRATION_FAILED ∧
    main_loop envNone false [] (List.replicate 13 blankTick) [] ≠ .DONE := by
  have h := main_loop_no_route_failed envNone [] (List.replicate 13 blankTick) []
    (by decide)
  rw [h]
  exact ⟨rfl, by decide⟩
